import Mathlib

/-!
Shallow embedding of the libbcc RenderScript compilation-cache subsystem:
the cache orchestrator `RSScript` (from `lib/ExecutionEngine/RSScript.cpp`)
and the cache reader `MCCacheReader` (interface from
`lib/ExecutionEngine/MCCacheReader.h`; the validation pipeline of
`MCCacheReader.cpp` is not part of the excerpt and is modelled from the
spec where noted).

External collaborators (file locks, file opens, the compiler, the cache
writer's serialization step, the Android system property) are modelled as
an oracle environment `Env` of pre-determined outcomes, and every
orchestrator operation additionally returns the list of externally
observable events (lock acquisitions, file opens, reader/writer
invocations, truncations, unlinks) it performed, in order.
-/

/-- Script lifecycle status (`ScriptStatus` in `Script.h`):
`Unknown` initial, `Compiled` / `Cached` terminal. -/
inductive ScriptStatus
  | Unknown
  | Compiled
  | Cached
  deriving DecidableEq, Repr

/-- Object kind produced so far (`ScriptObject` in `Script.h`). -/
inductive ScriptObject
  | Unknown
  | Relocatable
  | SharedObject
  | Executable
  deriving DecidableEq, Repr

/-- Error codes set on the script (`bcc.h` error constants used in
`RSScript.cpp`). -/
inductive BCCError
  | BCC_NO_ERROR
  | BCC_INVALID_OPERATION
  | BCC_OUT_OF_MEMORY
  deriving DecidableEq, Repr

/-- A 20-byte SHA-1 digest, modelled as a list of byte values. -/
abbrev Digest := List Nat

/-- `RSScript::SourceDependency`: a (source name, SHA-1 digest) record. -/
structure SourceDependency where
  sourceName : String
  sha1 : Digest
  deriving DecidableEq, Repr

/-- In-memory compiled artifact (`ScriptCompiled`), abstracted to its
observable accessor surface used by `RSScript.cpp`. -/
structure ScriptCompiled where
  exportVarCount : Nat
  exportFuncCount : Nat
  exportForEachCount : Nat
  pragmaCount : Nat
  funcCount : Nat
  objectSlotCount : Nat
  elfSize : Nat
  elf : List Nat
  compilerErrorMessage : Option String
  deriving DecidableEq, Repr

/-- In-memory cached artifact (`ScriptCached`), abstracted to its
observable accessor surface used by `RSScript.cpp`. -/
structure ScriptCached where
  exportVarCount : Nat
  exportFuncCount : Nat
  exportForEachCount : Nat
  pragmaCount : Nat
  funcCount : Nat
  objectSlotCount : Nat
  elfSize : Nat
  elf : List Nat
  isLibRSThreadable : Bool
  deriving DecidableEq, Repr

/-- The compilation unit's mutable state (`RSScript` data members).
`compiled` / `cached` model the pointees of `mCompiled` / `mCached`;
they are meaningful only when `status` selects them, exactly as the
C++ pointers are only dereferenced under the matching status. -/
structure RSScript where
  errorCode : BCCError
  status : ScriptStatus
  objectType : ScriptObject
  isContextSlotNotAvail : Bool
  sourceDependencies : List SourceDependency
  extSymbolLookupFn : Option Nat
  extSymbolLookupFnContext : Nat
  cacheDir : String
  cacheName : String
  compiled : ScriptCompiled
  cached : ScriptCached
  deriving DecidableEq, Repr

/-- `RSScript::resetState` (RSScript.cpp:90-101): clears the error code,
status, object type, the sticky context-slot flag and deletes all source
dependencies.  Per the FIXME in the source, the symbol-lookup callback is
deliberately NOT cleared. -/
def RSScript.resetState (s : RSScript) : RSScript :=
  { s with
    errorCode := BCCError.BCC_NO_ERROR
    status := ScriptStatus.Unknown
    objectType := ScriptObject.Unknown
    isContextSlotNotAvail := false
    sourceDependencies := [] }

/-- `RSScript::doReset` (RSScript.cpp:103-106): reset and report success. -/
def RSScript.doReset (s : RSScript) : Bool × RSScript :=
  (true, s.resetState)

/-- `RSScript::addSourceDependency` (RSScript.cpp:108-120); `allocOk`
models the `new (std::nothrow)` allocation outcome. -/
def RSScript.addSourceDependency (allocOk : Bool) (s : RSScript)
    (sourceName : String) (sha1 : Digest) : Bool × RSScript :=
  if allocOk then
    (true, { s with sourceDependencies :=
               s.sourceDependencies ++ [⟨sourceName, sha1⟩] })
  else
    (false, s)

/-- `RSScript::registerSymbolCallback` (RSScript.cpp:709-719): the
callback and its context are stored BEFORE the status check. -/
def RSScript.registerSymbolCallback (s : RSScript) (pFn : Option Nat)
    (pContext : Nat) : Int × RSScript :=
  let s1 := { s with extSymbolLookupFn := pFn,
                     extSymbolLookupFnContext := pContext }
  if s1.status ≠ ScriptStatus.Unknown then
    (1, { s1 with errorCode := BCCError.BCC_INVALID_OPERATION })
  else
    (0, s1)

/-- `RSScript::isCacheable` (RSScript.cpp:721-736); `nocacheProp` models
`getBooleanProp("debug.bcc.nocache")`. -/
def RSScript.isCacheable (nocacheProp : Bool) (s : RSScript) : Bool :=
  if nocacheProp then
    false
  else if s.cacheDir.isEmpty || s.cacheName.isEmpty then
    false
  else
    true

/-- `RSScript::getExportVarCount` (RSScript.cpp:455-469). -/
def RSScript.getExportVarCount (s : RSScript) : Nat :=
  match s.status with
  | ScriptStatus.Compiled => s.compiled.exportVarCount
  | ScriptStatus.Cached => s.cached.exportVarCount
  | ScriptStatus.Unknown => 0

/-- `RSScript::getExportFuncCount` (RSScript.cpp:472-486). -/
def RSScript.getExportFuncCount (s : RSScript) : Nat :=
  match s.status with
  | ScriptStatus.Compiled => s.compiled.exportFuncCount
  | ScriptStatus.Cached => s.cached.exportFuncCount
  | ScriptStatus.Unknown => 0

/-- `RSScript::getExportForEachCount` (RSScript.cpp:489-503). -/
def RSScript.getExportForEachCount (s : RSScript) : Nat :=
  match s.status with
  | ScriptStatus.Compiled => s.compiled.exportForEachCount
  | ScriptStatus.Cached => s.cached.exportForEachCount
  | ScriptStatus.Unknown => 0

/-- `RSScript::getPragmaCount` (RSScript.cpp:506-520). -/
def RSScript.getPragmaCount (s : RSScript) : Nat :=
  match s.status with
  | ScriptStatus.Compiled => s.compiled.pragmaCount
  | ScriptStatus.Cached => s.cached.pragmaCount
  | ScriptStatus.Unknown => 0

/-- `RSScript::getFuncCount` (RSScript.cpp:523-537). -/
def RSScript.getFuncCount (s : RSScript) : Nat :=
  match s.status with
  | ScriptStatus.Compiled => s.compiled.funcCount
  | ScriptStatus.Cached => s.cached.funcCount
  | ScriptStatus.Unknown => 0

/-- `RSScript::getObjectSlotCount` (RSScript.cpp:540-554). -/
def RSScript.getObjectSlotCount (s : RSScript) : Nat :=
  match s.status with
  | ScriptStatus.Compiled => s.compiled.objectSlotCount
  | ScriptStatus.Cached => s.cached.objectSlotCount
  | ScriptStatus.Unknown => 0

/-- `RSScript::getELFSize` (RSScript.cpp:738-752). -/
def RSScript.getELFSize (s : RSScript) : Nat :=
  match s.status with
  | ScriptStatus.Compiled => s.compiled.elfSize
  | ScriptStatus.Cached => s.cached.elfSize
  | ScriptStatus.Unknown => 0

/-- `RSScript::getELF` (RSScript.cpp:754-768); `none` models the NULL
pointer returned in the default case. -/
def RSScript.getELF (s : RSScript) : Option (List Nat) :=
  match s.status with
  | ScriptStatus.Compiled => some s.compiled.elf
  | ScriptStatus.Cached => some s.cached.elf
  | ScriptStatus.Unknown => none

/-- Shared (read) vs exclusive (write) lock, `FileBase::kReadLock` /
`kWriteLock`. -/
inductive LockKind
  | read
  | write
  deriving DecidableEq, Repr

/-- Which companion file: the cached object file or the cache info file. -/
inductive FileKind
  | obj
  | info
  deriving DecidableEq, Repr

/-- Externally observable actions of the orchestrator, in program order. -/
inductive Event
  | lockAcquire (k : LockKind) (f : FileKind) (granted : Bool)
  | fileOpen (forWrite : Bool) (f : FileKind) (ok : Bool)
  | readerInvoke (hit : Bool)
  | compileCall
  | writerInvoke (ok : Bool)
  | truncateFile (f : FileKind)
  | closeFile (f : FileKind)
  | unlinkFile (f : FileKind) (ok : Bool)
  | gdbRegister
  deriving DecidableEq, Repr

/-- The reader's dependency ledger `std::map<std::string, sha1>`
(`MCCacheReader.h:53`), modelled as an association list in insertion
order.  `std::map::insert` does not overwrite an existing key, which is
the only observable property of the container here besides lookup and
size, so ordering of entries is irrelevant to the model. -/
def depInsert (l : List (String × Digest)) (p : String × Digest) :
    List (String × Digest) :=
  if (l.map Prod.fst).contains p.1 then l else l ++ [p]

/-- Key lookup in the dependency map (`std::map::find`). -/
def depLookup : List (String × Digest) → String → Option Digest
  | [], _ => none
  | q :: qs, n => if q.1 = n then some q.2 else depLookup qs n

/-- The cache reader (`MCCacheReader.h:37-109`), data members that the
modelled operations touch. -/
structure MCCacheReader where
  dependencies : List (String × Digest)
  isContextSlotNotAvail : Bool
  symbolLookupFn : Option Nat
  symbolLookupContext : Nat
  deriving DecidableEq, Repr

/-- The default-constructed reader (`MCCacheReader()` at
`MCCacheReader.h:61-66`): empty dependency map, sticky flag down. -/
def MCCacheReader.new : MCCacheReader :=
  { dependencies := []
    isContextSlotNotAvail := false
    symbolLookupFn := none
    symbolLookupContext := 0 }

/-- `MCCacheReader::addDependency` (`MCCacheReader.h:70-73`):
`mDependencies.insert(std::make_pair(resName, sha1))`. -/
def MCCacheReader.addDependency (r : MCCacheReader) (resName : String)
    (sha1 : Digest) : MCCacheReader :=
  { r with dependencies := depInsert r.dependencies (resName, sha1) }

/-- `MCCacheReader::registerSymbolCallback` (`MCCacheReader.h:82-85`). -/
def MCCacheReader.registerSymbolCallback (r : MCCacheReader)
    (pFn : Option Nat) (pContext : Nat) : MCCacheReader :=
  { r with symbolLookupFn := pFn, symbolLookupContext := pContext }

/-- Modelled from the spec: the parsed content of the cache info file as
far as the validation pipeline of `MCCacheReader.cpp` (not part of the
excerpt) observes it.  Stages 1-5 of §4.2 (file size, header, machine
word type, section offsets/sizes, string pool) are abstracted to their
pass/fail outcome; the stored dependency table, the object-slot list,
the relocation outcome and the materialized artifact are explicit. -/
structure CacheInfoFile where
  sizeOk : Bool
  headerOk : Bool
  machineOk : Bool
  sectionTableOk : Bool
  stringPoolOk : Bool
  storedDeps : List (String × Digest)
  objectSlots : List Nat
  relocResolvable : Bool
  artifact : ScriptCached
  deriving DecidableEq, Repr

/-- Modelled from the spec: `MCCacheReader::checkDependency`
(`MCCacheReader.cpp` is not in the excerpt).  Per §4.2 stage 6: identical
entry count, and every stored `(name, digest)` pair must be present in
the caller-supplied ledger with an identical digest. -/
def checkDependency (deps : List (String × Digest))
    (stored : List (String × Digest)) : Bool :=
  (stored.length == deps.length) &&
    stored.all (fun p => depLookup deps p.1 == some p.2)

/-- Modelled from the spec: `MCCacheReader::checkCacheFile`
(`MCCacheReader.cpp` is not in the excerpt).  Per §4.2: stages 1-7
short-circuit in order; a failing context-slot compatibility check
(stage 7, `checkContext`) raises the sticky `mIsContextSlotNotAvail`
flag; the slot list is compatible when every recorded slot index is
available in the host runtime's current slot layout `availSlots`. -/
def MCCacheReader.checkCacheFile (r : MCCacheReader) (info : CacheInfoFile)
    (availSlots : List Nat) : Bool × MCCacheReader :=
  if !info.sizeOk then (false, r)
  else if !info.headerOk then (false, r)
  else if !info.machineOk then (false, r)
  else if !info.sectionTableOk then (false, r)
  else if !info.stringPoolOk then (false, r)
  else if !checkDependency r.dependencies info.storedDeps then (false, r)
  else if !(info.objectSlots.all (fun sl => availSlots.contains sl)) then
    (false, { r with isContextSlotNotAvail := true })
  else (true, r)

/-- Modelled from the spec: `MCCacheReader::readCacheFile`
(`MCCacheReader.cpp` is not in the excerpt).  Per §4.2: full validation
(stages 1-7) plus relocation (stage 8, hard failure on an unresolved
symbol) plus materialization of the cached artifact. -/
def MCCacheReader.readCacheFile (r : MCCacheReader) (info : CacheInfoFile)
    (availSlots : List Nat) : Option ScriptCached × MCCacheReader :=
  let chk := r.checkCacheFile info availSlots
  if chk.1 then
    if info.relocResolvable then (some info.artifact, chk.2)
    else (none, chk.2)
  else (none, chk.2)

/-- Outcomes of every external collaborator consulted during one
`prepareExecutable` run: the `debug.bcc.nocache` property, the file-lock
primitive, file opens, the parsed info-file content and current slot
layout seen by the reader, the compiler, the writer's serialization step
and the `unlink` calls. -/
structure Env where
  nocacheProp : Bool
  objReadLockOk : Bool
  infoReadLockOk : Bool
  objOpenReadOk : Bool
  infoOpenReadOk : Bool
  infoFileContent : CacheInfoFile
  availSlots : List Nat
  compileAllocOk : Bool
  readModuleOk : Bool
  compileOk : Bool
  compiledResult : ScriptCompiled
  objWriteLockOk : Bool
  infoWriteLockOk : Bool
  objOpenWriteOk : Bool
  infoOpenWriteOk : Bool
  writeCacheFileOk : Bool
  unlinkObjOk : Bool
  unlinkInfoOk : Bool
  deriving DecidableEq, Repr

/-- Cache-directory sanitization (RSScript.cpp:208-212): ensure a
non-empty `mCacheDir` ends with `'/'`. -/
def sanitizeCacheDir (d : String) : String :=
  if !d.isEmpty && d.back ≠ '/' then d.push '/' else d

/-- The `mCacheName` / `mCacheDir` assignments at the top of
`RSScript::internalLoadCache` (RSScript.cpp:205-212). -/
def setCachePaths (s : RSScript) (dir name : String) : RSScript :=
  { s with cacheName := name, cacheDir := sanitizeCacheDir dir }

/-- Constant from `Sha1Helper` (not in the excerpt): path of the libbcc
SHA-1 file.  The concrete value is irrelevant to every claim. -/
def pathLibBCC_SHA1 : String := "libbcc.so.sha1"

/-- Constant from `Sha1Helper` (not in the excerpt). -/
def pathLibRS : String := "libRS.so"

/-- Constant from `Sha1Helper` (not in the excerpt): digest of libbcc. -/
def sha1LibBCC_SHA1 : Digest := []

/-- Constant from `Sha1Helper` (not in the excerpt): digest of libRS. -/
def sha1LibRS : Digest := []

/-- Reader construction in `RSScript::internalLoadCache`
(RSScript.cpp:255-271): default reader, symbol callback registered when
the script has one, then the two runtime-library dependencies followed by
every registered source dependency in registration order. -/
def buildReader (s : RSScript) : MCCacheReader :=
  let r0 := MCCacheReader.new
  let r1 := if s.extSymbolLookupFn.isSome then
              r0.registerSymbolCallback s.extSymbolLookupFn
                s.extSymbolLookupFnContext
            else r0
  let r2 := r1.addDependency pathLibBCC_SHA1 sha1LibBCC_SHA1
  let r3 := r2.addDependency pathLibRS sha1LibRS
  s.sourceDependencies.foldl
    (fun r d => r.addDependency d.sourceName d.sha1) r3

/-- `RSScript::internalLoadCache` (RSScript.cpp:199-294).  Returns
(status, new script state, observable event trace). -/
def internalLoadCache (env : Env) (s : RSScript)
    (cacheDir cacheName : Option String) (checkOnly : Bool) :
    Int × RSScript × List Event :=
  match cacheDir, cacheName with
  | none, _ => (1, s, [])
  | some _, none => (1, s, [])
  | some dir, some name =>
    let s1 := setCachePaths s dir name
    if s1.isCacheable env.nocacheProp then
      if env.objReadLockOk then
        if env.infoReadLockOk then
          let tr0 := [Event.lockAcquire LockKind.read FileKind.obj true,
                      Event.lockAcquire LockKind.read FileKind.info true,
                      Event.fileOpen false FileKind.obj env.objOpenReadOk,
                      Event.fileOpen false FileKind.info env.infoOpenReadOk]
          if env.objOpenReadOk then
            if env.infoOpenReadOk then
              let r := buildReader s1
              if checkOnly then
                let chk := r.checkCacheFile env.infoFileContent env.availSlots
                (if chk.1 then 0 else 1, s1,
                 tr0 ++ [Event.readerInvoke chk.1])
              else
                let res := r.readCacheFile env.infoFileContent env.availSlots
                let pr : Int × RSScript :=
                  match res.1 with
                  | none =>
                    (1, { s1 with isContextSlotNotAvail :=
                            res.2.isContextSlotNotAvail })
                  | some c =>
                    (0, { s1 with
                          cached := c,
                          status := ScriptStatus.Cached })
                (pr.1, pr.2, tr0 ++ [Event.readerInvoke res.1.isSome])
            else (1, s1, tr0)
          else (1, s1, tr0)
        else (1, s1, [Event.lockAcquire LockKind.read FileKind.obj true,
                      Event.lockAcquire LockKind.read FileKind.info false])
      else (1, s1, [Event.lockAcquire LockKind.read FileKind.obj false])
    else (1, s1, [])

/-- `RSScript::internalCompile` (RSScript.cpp:296-327): allocate the
`ScriptCompiled` object (status becomes `Compiled` immediately after a
successful allocation), read the source module, compile. -/
def internalCompile (env : Env) (s : RSScript) :
    Int × RSScript × List Event :=
  if !env.compileAllocOk then
    (1, { s with errorCode := BCCError.BCC_OUT_OF_MEMORY },
     [Event.compileCall])
  else
    let s1 := { s with compiled := env.compiledResult,
                       status := ScriptStatus.Compiled }
    if !env.readModuleOk then (1, s1, [Event.compileCall])
    else if !env.compileOk then (1, s1, [Event.compileCall])
    else (0, s1, [Event.compileCall])

/-- `RSScript::writeCache` (RSScript.cpp:329-425).  When the writer's
`writeCacheFile` step fails, both files are truncated, closed and
unlinked, and the function still returns 0; failing to acquire a write
lock or to open either output file returns 1. -/
def writeCache (env : Env) (s : RSScript) : Int × RSScript × List Event :=
  if s.status ≠ ScriptStatus.Compiled then (1, s, [])
  else if s.compiled.compilerErrorMessage = none then (1, s, [])
  else if s.isCacheable env.nocacheProp then
    if env.objWriteLockOk then
      if env.infoWriteLockOk then
        let tr0 := [Event.lockAcquire LockKind.write FileKind.obj true,
                    Event.lockAcquire LockKind.write FileKind.info true,
                    Event.fileOpen true FileKind.obj env.objOpenWriteOk,
                    Event.fileOpen true FileKind.info env.infoOpenWriteOk]
        if env.objOpenWriteOk then
          if env.infoOpenWriteOk then
            if env.writeCacheFileOk then
              (0, s, tr0 ++ [Event.writerInvoke true])
            else
              (0, s, tr0 ++
                [Event.writerInvoke false,
                 Event.truncateFile FileKind.obj,
                 Event.truncateFile FileKind.info,
                 Event.closeFile FileKind.obj,
                 Event.closeFile FileKind.info,
                 Event.unlinkFile FileKind.obj env.unlinkObjOk,
                 Event.unlinkFile FileKind.info env.unlinkInfoOk])
          else (1, s, tr0)
        else (1, s, tr0)
      else (1, s, [Event.lockAcquire LockKind.write FileKind.obj true,
                   Event.lockAcquire LockKind.write FileKind.info false])
    else (1, s, [Event.lockAcquire LockKind.write FileKind.obj false])
  else (0, s, [])

/-- `RSScript::prepareExecutable` (RSScript.cpp:164-197): state check,
cache-load attempt, on miss compile then write the cache (a nonzero
`writeCache` status is returned to the caller), finally GDB registration
and the `Executable` object-type mark. -/
def prepareExecutable (env : Env) (s : RSScript)
    (cacheDir cacheName : Option String) : Int × RSScript × List Event :=
  if s.status ≠ ScriptStatus.Unknown then
    (1, { s with errorCode := BCCError.BCC_INVALID_OPERATION }, [])
  else
    let l := internalLoadCache env s cacheDir cacheName false
    if l.1 ≠ 0 then
      let c := internalCompile env l.2.1
      if c.1 ≠ 0 then (c.1, c.2.1, l.2.2 ++ c.2.2)
      else
        let w := writeCache env c.2.1
        if w.1 ≠ 0 then (w.1, w.2.1, l.2.2 ++ c.2.2 ++ w.2.2)
        else (0, { w.2.1 with objectType := ScriptObject.Executable },
              l.2.2 ++ c.2.2 ++ w.2.2 ++ [Event.gdbRegister])
    else (0, { l.2.1 with objectType := ScriptObject.Executable },
          l.2.2 ++ [Event.gdbRegister])

/-- Abstract state of the two companion files on disk (`none` = absent).
Content written by a successful `writeCacheFile` is not modelled — only
creation, truncation and removal, which is all the cleanup path touches. -/
structure CacheFS where
  objFile : Option (List Nat)
  infoFile : Option (List Nat)
  deriving DecidableEq, Repr

/-- Effect of one observable event on the companion files: opening for
write creates an empty file, truncation empties an existing file, a
successful `unlink` removes it. -/
def applyEvent (fs : CacheFS) (e : Event) : CacheFS :=
  match e with
  | Event.fileOpen true FileKind.obj true => { fs with objFile := some [] }
  | Event.fileOpen true FileKind.info true => { fs with infoFile := some [] }
  | Event.truncateFile FileKind.obj =>
    { fs with objFile := fs.objFile.map (fun _ => []) }
  | Event.truncateFile FileKind.info =>
    { fs with infoFile := fs.infoFile.map (fun _ => []) }
  | Event.unlinkFile FileKind.obj true => { fs with objFile := none }
  | Event.unlinkFile FileKind.info true => { fs with infoFile := none }
  | _ => fs

/-- Effect of an event trace on the companion files, in order. -/
def applyTrace (fs : CacheFS) (tr : List Event) : CacheFS :=
  tr.foldl applyEvent fs

/-- Scans a trace tracking whether the object-file lock has been granted;
an info-file lock acquisition attempt is admissible only afterwards. -/
def lockOrderOk : Bool → List Event → Bool
  | _, [] => true
  | seenObj, Event.lockAcquire _ FileKind.obj granted :: es =>
    lockOrderOk (seenObj || granted) es
  | seenObj, Event.lockAcquire _ FileKind.info _ :: es =>
    seenObj && lockOrderOk seenObj es
  | seenObj, _ :: es => lockOrderOk seenObj es

/-- Every lock acquisition in the trace is of the given kind. -/
def locksAllOfKind (k : LockKind) : List Event → Bool
  | [] => true
  | Event.lockAcquire k2 _ _ :: es => k2 == k && locksAllOfKind k es
  | _ :: es => locksAllOfKind k es

/-- An unconfigured C string argument: the NULL pointer or the empty
string. -/
def cstrEmpty : Option String → Bool
  | none => true
  | some s => s.isEmpty

/-- Keys of a dependency association list. -/
def keysOf (l : List (String × Digest)) : List String :=
  l.map Prod.fst

/-- A fresh reader after an arbitrary sequence of `addDependency` calls,
one per list entry, in list order. -/
def readerWithDeps (l : List (String × Digest)) : MCCacheReader :=
  l.foldl (fun r p => r.addDependency p.1 p.2) MCCacheReader.new

/-- Zero-valued compiled artifact (fixture for concrete instances). -/
def emptyCompiled : ScriptCompiled :=
  { exportVarCount := 0, exportFuncCount := 0, exportForEachCount := 0,
    pragmaCount := 0, funcCount := 0, objectSlotCount := 0,
    elfSize := 0, elf := [], compilerErrorMessage := none }

/-- Zero-valued cached artifact (fixture for concrete instances). -/
def emptyCached : ScriptCached :=
  { exportVarCount := 0, exportFuncCount := 0, exportForEachCount := 0,
    pragmaCount := 0, funcCount := 0, objectSlotCount := 0,
    elfSize := 0, elf := [], isLibRSThreadable := false }

/-- A compiled artifact with distinctive values (fixture). -/
def sampleCompiled : ScriptCompiled :=
  { exportVarCount := 3, exportFuncCount := 4, exportForEachCount := 5,
    pragmaCount := 2, funcCount := 6, objectSlotCount := 1,
    elfSize := 8, elf := [9, 9], compilerErrorMessage := some "" }

/-- A cached artifact with distinctive values (fixture). -/
def sampleCached : ScriptCached :=
  { exportVarCount := 13, exportFuncCount := 14, exportForEachCount := 15,
    pragmaCount := 12, funcCount := 16, objectSlotCount := 11,
    elfSize := 18, elf := [7], isLibRSThreadable := true }

/-- A freshly constructed compilation unit (`RSScript::RSScript` runs
`resetState`; `mCacheDir` / `mCacheName` start empty). -/
def freshScript : RSScript :=
  { errorCode := BCCError.BCC_NO_ERROR, status := ScriptStatus.Unknown,
    objectType := ScriptObject.Unknown, isContextSlotNotAvail := false,
    sourceDependencies := [], extSymbolLookupFn := none,
    extSymbolLookupFnContext := 0, cacheDir := "", cacheName := "",
    compiled := emptyCompiled, cached := emptyCached }

/-- An info file that passes every abstracted validation stage (fixture). -/
def passInfoFile : CacheInfoFile :=
  { sizeOk := true, headerOk := true, machineOk := true,
    sectionTableOk := true, stringPoolOk := true, storedDeps := [],
    objectSlots := [], relocResolvable := true, artifact := sampleCached }

/-- An environment in which every external collaborator succeeds
(fixture; individual witnesses flip single fields). -/
def baseEnv : Env :=
  { nocacheProp := false, objReadLockOk := true, infoReadLockOk := true,
    objOpenReadOk := true, infoOpenReadOk := true,
    infoFileContent := passInfoFile, availSlots := [],
    compileAllocOk := true, readModuleOk := true, compileOk := true,
    compiledResult := sampleCompiled, objWriteLockOk := true,
    infoWriteLockOk := true, objOpenWriteOk := true,
    infoOpenWriteOk := true, writeCacheFileOk := true,
    unlinkObjOk := true, unlinkInfoOk := true }

/-- Environment for the C1 counterexample: the cache read misses (bad
info-file size), the compile succeeds, and acquiring the write lock on
the object file fails. -/
def envC1 : Env :=
  { baseEnv with
    infoFileContent := { passInfoFile with sizeOk := false },
    objWriteLockOk := false }

/-- Claim C3: calling `prepareExecutable` on a unit not in `Unknown`
state fails: the error code becomes the invalid-operation value, the
returned status is nonzero (1), and nothing else happens — the state is
otherwise unchanged and the event trace is empty (no lock, no file open,
no reader, no compile, no writer, no object-type change). -/
theorem claim_C3_invalid_operation (env : Env) (s : RSScript)
    (cacheDir cacheName : Option String)
    (h : s.status ≠ ScriptStatus.Unknown) :
    prepareExecutable env s cacheDir cacheName =
      (1, { s with errorCode := BCCError.BCC_INVALID_OPERATION }, []) := by
  simp [prepareExecutable, h]

/-- Witness for C3 at a concrete unit in `Compiled` state. -/
theorem claim_C3_witness :
    prepareExecutable baseEnv { freshScript with status := ScriptStatus.Compiled }
        (some "dir") (some "name") =
      (1, { freshScript with
            status := ScriptStatus.Compiled,
            errorCode := BCCError.BCC_INVALID_OPERATION }, []) :=
  claim_C3_invalid_operation baseEnv
    { freshScript with status := ScriptStatus.Compiled }
    (some "dir") (some "name") (by decide)

/-- Claim C4: resetting a unit (from any prior state) returns it to
`Unknown` and wipes the state: no-error error code, `Unknown` object
type, sticky context-slot flag cleared, and all pending
source-dependency records deleted; `doReset` reports success and
performs exactly this reset. -/
theorem claim_C4_reset_full_wipe (s : RSScript) :
    s.resetState.errorCode = BCCError.BCC_NO_ERROR ∧
    s.resetState.status = ScriptStatus.Unknown ∧
    s.resetState.objectType = ScriptObject.Unknown ∧
    s.resetState.isContextSlotNotAvail = false ∧
    s.resetState.sourceDependencies = [] ∧
    s.doReset = (true, s.resetState) := by
  simp [RSScript.resetState, RSScript.doReset]

/-- Claim C10: `registerSymbolCallback` stores the supplied function and
context unconditionally — also when the unit is not in `Unknown` state,
in which case it additionally sets the invalid-operation error code and
returns 1; the error return therefore does not imply the unit was left
unchanged. -/
theorem claim_C10_register_overwrites (s : RSScript) (pFn : Option Nat)
    (pContext : Nat) :
    ((s.registerSymbolCallback pFn pContext).2.extSymbolLookupFn = pFn ∧
     (s.registerSymbolCallback pFn pContext).2.extSymbolLookupFnContext =
       pContext) ∧
    (s.status ≠ ScriptStatus.Unknown →
      (s.registerSymbolCallback pFn pContext).1 = 1 ∧
      (s.registerSymbolCallback pFn pContext).2.errorCode =
        BCCError.BCC_INVALID_OPERATION) ∧
    (s.status = ScriptStatus.Unknown →
      (s.registerSymbolCallback pFn pContext).1 = 0) := by
  unfold RSScript.registerSymbolCallback
  by_cases h : s.status = ScriptStatus.Unknown <;> simp [h]

/-- Witness for C10: a unit in `Compiled` state still gets the new
callback stored while the call reports the invalid-operation failure. -/
theorem claim_C10_witness :
    (({ freshScript with status := ScriptStatus.Compiled
       }.registerSymbolCallback (some 5) 7).2.extSymbolLookupFn = some 5) ∧
    (({ freshScript with status := ScriptStatus.Compiled
       }.registerSymbolCallback (some 5) 7).2.extSymbolLookupFnContext = 7) ∧
    (({ freshScript with status := ScriptStatus.Compiled
       }.registerSymbolCallback (some 5) 7).1 = 1) :=
  ⟨(claim_C10_register_overwrites
      { freshScript with status := ScriptStatus.Compiled } (some 5) 7).1.1,
   (claim_C10_register_overwrites
      { freshScript with status := ScriptStatus.Compiled } (some 5) 7).1.2,
   ((claim_C10_register_overwrites
      { freshScript with status := ScriptStatus.Compiled } (some 5) 7).2.1
      (by decide)).1⟩

/-- Claim C9: in `Unknown` state every export accessor returns the
empty/zero value of its type (counts and ELF size 0, ELF pointer NULL);
in `Compiled` or `Cached` state each accessor returns the underlying
artifact's value. -/
theorem claim_C9_accessor_dispatch (s : RSScript) :
    (s.status = ScriptStatus.Unknown →
      s.getExportVarCount = 0 ∧ s.getExportFuncCount = 0 ∧
      s.getExportForEachCount = 0 ∧ s.getPragmaCount = 0 ∧
      s.getFuncCount = 0 ∧ s.getObjectSlotCount = 0 ∧
      s.getELFSize = 0 ∧ s.getELF = none) ∧
    (s.status = ScriptStatus.Compiled →
      s.getExportVarCount = s.compiled.exportVarCount ∧
      s.getExportFuncCount = s.compiled.exportFuncCount ∧
      s.getExportForEachCount = s.compiled.exportForEachCount ∧
      s.getPragmaCount = s.compiled.pragmaCount ∧
      s.getFuncCount = s.compiled.funcCount ∧
      s.getObjectSlotCount = s.compiled.objectSlotCount ∧
      s.getELFSize = s.compiled.elfSize ∧
      s.getELF = some s.compiled.elf) ∧
    (s.status = ScriptStatus.Cached →
      s.getExportVarCount = s.cached.exportVarCount ∧
      s.getExportFuncCount = s.cached.exportFuncCount ∧
      s.getExportForEachCount = s.cached.exportForEachCount ∧
      s.getPragmaCount = s.cached.pragmaCount ∧
      s.getFuncCount = s.cached.funcCount ∧
      s.getObjectSlotCount = s.cached.objectSlotCount ∧
      s.getELFSize = s.cached.elfSize ∧
      s.getELF = some s.cached.elf) := by
  refine ⟨?_, ?_, ?_⟩ <;> intro h <;>
    simp [RSScript.getExportVarCount, RSScript.getExportFuncCount,
          RSScript.getExportForEachCount, RSScript.getPragmaCount,
          RSScript.getFuncCount, RSScript.getObjectSlotCount,
          RSScript.getELFSize, RSScript.getELF, h]

/-- Witness for C9 at a fresh (`Unknown`) unit and at a unit in
`Compiled` state holding `sampleCompiled`. -/
theorem claim_C9_witness :
    (freshScript.getExportVarCount = 0 ∧ freshScript.getELF = none) ∧
    (({ freshScript with
        status := ScriptStatus.Compiled,
        compiled := sampleCompiled }.getExportVarCount =
          sampleCompiled.exportVarCount) ∧
     ({ freshScript with
        status := ScriptStatus.Compiled,
        compiled := sampleCompiled }.getELF = some sampleCompiled.elf)) :=
  ⟨⟨((claim_C9_accessor_dispatch freshScript).1 (by decide)).1,
    ((claim_C9_accessor_dispatch freshScript).1 (by decide)).2.2.2.2.2.2.2⟩,
   ⟨((claim_C9_accessor_dispatch
       { freshScript with
         status := ScriptStatus.Compiled,
         compiled := sampleCompiled }).2.1 (by decide)).1,
    ((claim_C9_accessor_dispatch
       { freshScript with
         status := ScriptStatus.Compiled,
         compiled := sampleCompiled }).2.1 (by decide)).2.2.2.2.2.2.2⟩⟩

/-- Helper: under a held write lock with both output files open, a
failing `writeCacheFile` makes `writeCache` truncate, close and unlink
both files (in that order) and still return 0. -/
theorem writeCache_writer_fail_spec (env : Env) (s : RSScript)
    (hst : s.status = ScriptStatus.Compiled)
    (hmsg : s.compiled.compilerErrorMessage ≠ none)
    (hnp : env.nocacheProp = false)
    (hd : s.cacheDir.isEmpty = false)
    (hn : s.cacheName.isEmpty = false)
    (hl1 : env.objWriteLockOk = true) (hl2 : env.infoWriteLockOk = true)
    (ho1 : env.objOpenWriteOk = true) (ho2 : env.infoOpenWriteOk = true)
    (hw : env.writeCacheFileOk = false) :
    writeCache env s =
      (0, s,
       [Event.lockAcquire LockKind.write FileKind.obj true,
        Event.lockAcquire LockKind.write FileKind.info true,
        Event.fileOpen true FileKind.obj true,
        Event.fileOpen true FileKind.info true,
        Event.writerInvoke false,
        Event.truncateFile FileKind.obj,
        Event.truncateFile FileKind.info,
        Event.closeFile FileKind.obj,
        Event.closeFile FileKind.info,
        Event.unlinkFile FileKind.obj env.unlinkObjOk,
        Event.unlinkFile FileKind.info env.unlinkInfoOk]) := by
  have hcache : s.isCacheable env.nocacheProp = true := by
    simp [RSScript.isCacheable, hnp, hd, hn]
  simp [writeCache, hst, hmsg, hcache, hl1, hl2, ho1, ho2, hw]

/-- Claim C2: when the Writer's `writeCacheFile` step fails, `writeCache`
truncates both companion files and removes (unlinks) both from the
filesystem before returning; applied to any filesystem state, the
cleanup trace leaves neither file present (given the `unlink` calls
themselves succeed), so no partially written companion file remains
observable to a later reader. -/
theorem claim_C2_atomic_write_cleanup (env : Env) (s : RSScript)
    (hst : s.status = ScriptStatus.Compiled)
    (hmsg : s.compiled.compilerErrorMessage ≠ none)
    (hnp : env.nocacheProp = false)
    (hd : s.cacheDir.isEmpty = false)
    (hn : s.cacheName.isEmpty = false)
    (hl1 : env.objWriteLockOk = true) (hl2 : env.infoWriteLockOk = true)
    (ho1 : env.objOpenWriteOk = true) (ho2 : env.infoOpenWriteOk = true)
    (hw : env.writeCacheFileOk = false)
    (hu1 : env.unlinkObjOk = true) (hu2 : env.unlinkInfoOk = true) :
    (writeCache env s).2.2 =
      [Event.lockAcquire LockKind.write FileKind.obj true,
       Event.lockAcquire LockKind.write FileKind.info true,
       Event.fileOpen true FileKind.obj true,
       Event.fileOpen true FileKind.info true,
       Event.writerInvoke false,
       Event.truncateFile FileKind.obj,
       Event.truncateFile FileKind.info,
       Event.closeFile FileKind.obj,
       Event.closeFile FileKind.info,
       Event.unlinkFile FileKind.obj true,
       Event.unlinkFile FileKind.info true] ∧
    (∀ fs : CacheFS,
       applyTrace fs (writeCache env s).2.2 =
         { objFile := none, infoFile := none }) := by
  have h := writeCache_writer_fail_spec env s hst hmsg hnp hd hn hl1 hl2
    ho1 ho2 hw
  rw [h, hu1, hu2]
  refine ⟨rfl, ?_⟩
  intro fs
  simp [applyTrace, applyEvent]

/-- Witness for C2 at a concrete environment and unit. -/
theorem claim_C2_witness :
    (writeCache { baseEnv with writeCacheFileOk := false }
       { freshScript with
         status := ScriptStatus.Compiled,
         compiled := sampleCompiled,
         cacheDir := "d/", cacheName := "n" }).2.2 =
      [Event.lockAcquire LockKind.write FileKind.obj true,
       Event.lockAcquire LockKind.write FileKind.info true,
       Event.fileOpen true FileKind.obj true,
       Event.fileOpen true FileKind.info true,
       Event.writerInvoke false,
       Event.truncateFile FileKind.obj,
       Event.truncateFile FileKind.info,
       Event.closeFile FileKind.obj,
       Event.closeFile FileKind.info,
       Event.unlinkFile FileKind.obj true,
       Event.unlinkFile FileKind.info true] ∧
    applyTrace { objFile := some [1, 2], infoFile := none }
        (writeCache { baseEnv with writeCacheFileOk := false }
           { freshScript with
             status := ScriptStatus.Compiled,
             compiled := sampleCompiled,
             cacheDir := "d/", cacheName := "n" }).2.2 =
      { objFile := none, infoFile := none } :=
  ⟨(claim_C2_atomic_write_cleanup _ _ (by decide) (by decide) (by decide)
      (by decide) (by decide) (by decide) (by decide) (by decide)
      (by decide) (by decide) (by decide) (by decide)).1,
   (claim_C2_atomic_write_cleanup _ _ (by decide) (by decide) (by decide)
      (by decide) (by decide) (by decide) (by decide) (by decide)
      (by decide) (by decide) (by decide) (by decide)).2
     { objFile := some [1, 2], infoFile := none }⟩

/-- Claim C7: on every cache access the object-file lock is acquired
before the info-file lock: the read path takes read locks and the write
path write locks, and in every possible event trace of either path an
info-file lock acquisition attempt occurs only after the object-file
lock has been granted. -/
theorem claim_C7_lock_order :
    (∀ (env : Env) (s : RSScript) (cacheDir cacheName : Option String)
       (checkOnly : Bool),
       lockOrderOk false
           (internalLoadCache env s cacheDir cacheName checkOnly).2.2 =
         true ∧
       locksAllOfKind LockKind.read
           (internalLoadCache env s cacheDir cacheName checkOnly).2.2 =
         true) ∧
    (∀ (env : Env) (s : RSScript),
       lockOrderOk false (writeCache env s).2.2 = true ∧
       locksAllOfKind LockKind.write (writeCache env s).2.2 = true) := by
  constructor
  · intro env s cacheDir cacheName checkOnly
    rcases cacheDir with _ | dir
    · simp [internalLoadCache, lockOrderOk, locksAllOfKind]
    · rcases cacheName with _ | name
      · simp [internalLoadCache, lockOrderOk, locksAllOfKind]
      · cases hc : RSScript.isCacheable env.nocacheProp
            (setCachePaths s dir name) <;>
        cases h1 : env.objReadLockOk <;>
        cases h2 : env.infoReadLockOk <;>
        cases h3 : env.objOpenReadOk <;>
        cases h4 : env.infoOpenReadOk <;>
        cases checkOnly <;>
          simp [internalLoadCache, hc, h1, h2, h3, h4, lockOrderOk,
                locksAllOfKind]
  · intro env s
    by_cases hst : s.status = ScriptStatus.Compiled
    · by_cases hmsg : s.compiled.compilerErrorMessage = none
      · simp [writeCache, hst, hmsg, lockOrderOk, locksAllOfKind]
      · cases hc : s.isCacheable env.nocacheProp <;>
        cases h1 : env.objWriteLockOk <;>
        cases h2 : env.infoWriteLockOk <;>
        cases h3 : env.objOpenWriteOk <;>
        cases h4 : env.infoOpenWriteOk <;>
        cases h5 : env.writeCacheFileOk <;>
          simp [writeCache, hst, hmsg, hc, h1, h2, h3, h4, h5, lockOrderOk,
                locksAllOfKind]
    · simp [writeCache, hst, lockOrderOk, locksAllOfKind]

/-- Helper: pushing a character onto a string never yields the empty
string. -/
theorem push_isEmpty_false (d : String) (c : Char) :
    (d.push c).isEmpty = false := by
  rw [Bool.eq_false_iff]
  intro hh
  have h2 : d.push c = "" := (String.isEmpty_iff _).mp hh
  have h3 := congrArg String.length h2
  simp [String.length_push] at h3

/-- Helper: cache-directory sanitization preserves (non-)emptiness. -/
theorem sanitizeCacheDir_isEmpty (d : String) :
    (sanitizeCacheDir d).isEmpty = d.isEmpty := by
  unfold sanitizeCacheDir
  split
  · next h =>
    simp only [Bool.and_eq_true, Bool.not_eq_true'] at h
    rw [push_isEmpty_false, h.1]
  · rfl

/-- Claim C8: the cache path is skipped entirely — empty event trace, so
no lock acquisition, no file open, no reader invocation — exactly when
the `debug.bcc.nocache` switch is set or the configured cache directory
is empty/NULL or the configured cache name is empty/NULL, in which case
the load reports a miss (status 1); likewise the write path performs no
cache work (no lock, no open, no writer) exactly under the same switch /
empty-path condition. -/
theorem claim_C8_cache_skip :
    (∀ (env : Env) (s : RSScript) (cacheDir cacheName : Option String)
       (checkOnly : Bool),
       ((internalLoadCache env s cacheDir cacheName checkOnly).2.2 = [] ↔
         (env.nocacheProp || cstrEmpty cacheDir || cstrEmpty cacheName) =
           true) ∧
       ((env.nocacheProp || cstrEmpty cacheDir || cstrEmpty cacheName) =
           true →
         (internalLoadCache env s cacheDir cacheName checkOnly).1 = 1)) ∧
    (∀ (env : Env) (s : RSScript), s.status = ScriptStatus.Compiled →
       s.compiled.compilerErrorMessage ≠ none →
       ((writeCache env s).2.2 = [] ↔
         (env.nocacheProp || s.cacheDir.isEmpty || s.cacheName.isEmpty) =
           true)) := by
  constructor
  · intro env s cacheDir cacheName checkOnly
    rcases cacheDir with _ | dir
    · simp [internalLoadCache, cstrEmpty]
    rcases cacheName with _ | name
    · simp [internalLoadCache, cstrEmpty]
    simp only [cstrEmpty]
    cases hp : env.nocacheProp <;> cases hdir : dir.isEmpty <;>
      cases hname : name.isEmpty <;>
      first
      | (simp [internalLoadCache, setCachePaths, RSScript.isCacheable,
               sanitizeCacheDir_isEmpty, hp, hdir, hname]
         done)
      | (cases h1 : env.objReadLockOk <;>
         cases h2 : env.infoReadLockOk <;>
         cases h3 : env.objOpenReadOk <;>
         cases h4 : env.infoOpenReadOk <;>
         cases checkOnly <;>
           simp [internalLoadCache, setCachePaths, RSScript.isCacheable,
                 sanitizeCacheDir_isEmpty, hp, hdir, hname, h1, h2, h3, h4])
  · intro env s hst hmsg
    cases hp : env.nocacheProp <;> cases hd : s.cacheDir.isEmpty <;>
      cases hn : s.cacheName.isEmpty <;>
      first
      | (simp [writeCache, RSScript.isCacheable, hst, hmsg, hp, hd, hn]
         done)
      | (cases h1 : env.objWriteLockOk <;>
         cases h2 : env.infoWriteLockOk <;>
         cases h3 : env.objOpenWriteOk <;>
         cases h4 : env.infoOpenWriteOk <;>
         cases h5 : env.writeCacheFileOk <;>
           simp [writeCache, RSScript.isCacheable, hst, hmsg, hp, hd, hn,
                 h1, h2, h3, h4, h5])

/-- Witness for C8: with the `nocache` switch set the load path emits no
events and misses; with everything configured the compiled unit's write
path emits events (the iff's right side is false). -/
theorem claim_C8_witness :
    ((internalLoadCache { baseEnv with nocacheProp := true } freshScript
        (some "d") (some "n") false).2.2 = [] ↔
      (({ baseEnv with nocacheProp := true } : Env).nocacheProp ||
        cstrEmpty (some "d") || cstrEmpty (some "n")) = true) ∧
    ((internalLoadCache { baseEnv with nocacheProp := true } freshScript
        (some "d") (some "n") false).1 = 1) ∧
    ((writeCache baseEnv
        { freshScript with
          status := ScriptStatus.Compiled,
          compiled := sampleCompiled,
          cacheDir := "d/", cacheName := "n" }).2.2 = [] ↔
      (baseEnv.nocacheProp ||
        ({ freshScript with
           status := ScriptStatus.Compiled,
           compiled := sampleCompiled,
           cacheDir := "d/", cacheName := "n" } : RSScript).cacheDir.isEmpty ||
        ({ freshScript with
           status := ScriptStatus.Compiled,
           compiled := sampleCompiled,
           cacheDir := "d/", cacheName := "n" } : RSScript).cacheName.isEmpty) =
        true) :=
  ⟨(claim_C8_cache_skip.1 { baseEnv with nocacheProp := true } freshScript
      (some "d") (some "n") false).1,
   (claim_C8_cache_skip.1 { baseEnv with nocacheProp := true } freshScript
      (some "d") (some "n") false).2 (by decide),
   claim_C8_cache_skip.2 baseEnv
     { freshScript with
       status := ScriptStatus.Compiled,
       compiled := sampleCompiled,
       cacheDir := "d/", cacheName := "n" } (by decide) (by decide)⟩

/-- Claim C5: (a) in the spec-modelled Cache Reader, when validation
reaches the context-slot stage (stages 1-6 pass) and the recorded
object-slot list is incompatible with the runtime's current slot layout,
the read is rejected and the sticky context-slot-not-available flag is
raised on the reader; (b) in the orchestrator, on any failed cache read
the unit's `mIsContextSlotNotAvail` is set to exactly the reader's flag
(and the load reports a miss), so the caller can distinguish this
rejection cause. -/
theorem claim_C5_context_slot_flag :
    (∀ (r : MCCacheReader) (info : CacheInfoFile) (avail : List Nat),
       info.sizeOk = true → info.headerOk = true → info.machineOk = true →
       info.sectionTableOk = true → info.stringPoolOk = true →
       checkDependency r.dependencies info.storedDeps = true →
       info.objectSlots.all (fun sl => avail.contains sl) = false →
       (r.readCacheFile info avail).1 = none ∧
       (r.readCacheFile info avail).2.isContextSlotNotAvail = true) ∧
    (∀ (env : Env) (s : RSScript) (dir name : String),
       RSScript.isCacheable env.nocacheProp (setCachePaths s dir name) =
         true →
       env.objReadLockOk = true → env.infoReadLockOk = true →
       env.objOpenReadOk = true → env.infoOpenReadOk = true →
       ((buildReader (setCachePaths s dir name)).readCacheFile
           env.infoFileContent env.availSlots).1 = none →
       (internalLoadCache env s (some dir) (some name) false).1 = 1 ∧
       (internalLoadCache env s (some dir) (some name)
           false).2.1.isContextSlotNotAvail =
         ((buildReader (setCachePaths s dir name)).readCacheFile
             env.infoFileContent env.availSlots).2.isContextSlotNotAvail) := by
  constructor
  · intro r info avail h1 h2 h3 h4 h5 hdep hslots
    simp only [MCCacheReader.readCacheFile, MCCacheReader.checkCacheFile,
               h1, h2, h3, h4, h5, hdep, hslots, Bool.not_true,
               Bool.not_false, ite_true, ite_false, if_true, if_false]
    simp
  · intro env s dir name hc hl1 hl2 ho1 ho2 hres
    simp [internalLoadCache, hc, hl1, hl2, ho1, ho2, hres]

/-- Witness for C5: a cache recording object slot 7 read by a runtime
with no available slots is rejected with the sticky flag raised, and the
orchestrator copies the reader's flag on a failed read. -/
theorem claim_C5_witness :
    ((MCCacheReader.new.readCacheFile
        { passInfoFile with objectSlots := [7] } []).1 = none ∧
     (MCCacheReader.new.readCacheFile
        { passInfoFile with objectSlots := [7] } []).2.isContextSlotNotAvail =
       true) ∧
    ((internalLoadCache
        { baseEnv with
          infoFileContent := { passInfoFile with objectSlots := [7] } }
        freshScript (some "d") (some "n") false).1 = 1 ∧
     (internalLoadCache
        { baseEnv with
          infoFileContent := { passInfoFile with objectSlots := [7] } }
        freshScript (some "d") (some "n")
        false).2.1.isContextSlotNotAvail =
       ((buildReader (setCachePaths freshScript "d" "n")).readCacheFile
           { passInfoFile with objectSlots := [7] }
           []).2.isContextSlotNotAvail) :=
  ⟨claim_C5_context_slot_flag.1 MCCacheReader.new
     { passInfoFile with objectSlots := [7] } [] rfl rfl rfl rfl rfl
     (by decide) (by decide),
   claim_C5_context_slot_flag.2
     { baseEnv with
       infoFileContent := { passInfoFile with objectSlots := [7] } }
     freshScript "d" "n" (by decide) rfl rfl rfl rfl (by decide)⟩

/-- Helper: `internalLoadCache` with non-NULL arguments always stores the
sanitized cache directory and the cache name in the unit, on every path. -/
theorem internalLoadCache_paths (env : Env) (s : RSScript)
    (dir name : String) (checkOnly : Bool) :
    (internalLoadCache env s (some dir) (some name)
        checkOnly).2.1.cacheDir = sanitizeCacheDir dir ∧
    (internalLoadCache env s (some dir) (some name)
        checkOnly).2.1.cacheName = name := by
  simp only [internalLoadCache]
  cases hc : RSScript.isCacheable env.nocacheProp (setCachePaths s dir name)
  · simp [setCachePaths]
  · cases h1 : env.objReadLockOk
    · simp [setCachePaths]
    · cases h2 : env.infoReadLockOk
      · simp [setCachePaths]
      · cases h3 : env.objOpenReadOk
        · simp [setCachePaths]
        · cases h4 : env.infoOpenReadOk
          · simp [setCachePaths]
          · cases checkOnly
            · cases hres : ((buildReader (setCachePaths s dir
                  name)).readCacheFile env.infoFileContent
                  env.availSlots).1 <;>
                simp [hres, setCachePaths]
            · simp [setCachePaths]

/-- Helper: a fully successful compile step sets the artifact and moves
the unit to `Compiled`. -/
theorem internalCompile_success (env : Env) (s : RSScript)
    (ha : env.compileAllocOk = true) (hr : env.readModuleOk = true)
    (hcp : env.compileOk = true) :
    internalCompile env s =
      (0, { s with
            compiled := env.compiledResult,
            status := ScriptStatus.Compiled },
       [Event.compileCall]) := by
  simp [internalCompile, ha, hr, hcp]

/-- Helper: when any pre-serialization step of the write path fails —
acquiring the object-file or info-file write lock, or opening either
output file — `writeCache` returns 1 with the unit unchanged. -/
theorem writeCache_preWrite_fail (env : Env) (s : RSScript)
    (hst : s.status = ScriptStatus.Compiled)
    (hmsg : s.compiled.compilerErrorMessage ≠ none)
    (hnp : env.nocacheProp = false)
    (hd : s.cacheDir.isEmpty = false)
    (hn : s.cacheName.isEmpty = false)
    (hfail : env.objWriteLockOk = false ∨ env.infoWriteLockOk = false ∨
      env.objOpenWriteOk = false ∨ env.infoOpenWriteOk = false) :
    (writeCache env s).1 = 1 ∧ (writeCache env s).2.1 = s := by
  have hcache : s.isCacheable env.nocacheProp = true := by
    simp [RSScript.isCacheable, hnp, hd, hn]
  rcases hfail with h | h | h | h
  · simp [writeCache, hst, hmsg, hcache, h]
  · cases h1 : env.objWriteLockOk <;>
      simp [writeCache, hst, hmsg, hcache, h1, h]
  · cases h1 : env.objWriteLockOk <;>
      cases h2 : env.infoWriteLockOk <;>
      simp [writeCache, hst, hmsg, hcache, h1, h2, h]
  · cases h1 : env.objWriteLockOk <;>
      cases h2 : env.infoWriteLockOk <;>
      cases h3 : env.objOpenWriteOk <;>
      simp [writeCache, hst, hmsg, hcache, h1, h2, h3, h]

/-- Counterexample for C1: the unit starts in `Unknown` state, the cache
read misses and the compile succeeds, but acquiring the write lock on
the object file fails inside the cache-write step (`writeCache` returns
nonzero), and `prepareExecutable` propagates the failure: it returns 1,
not the success status 0, even though the unit is left in `Compiled`
state with a valid in-memory artifact. -/
theorem claim_C1_counterexample :
    (prepareExecutable envC1 freshScript (some "dir") (some "name")).1 =
      1 ∧
    (prepareExecutable envC1 freshScript (some "dir")
        (some "name")).2.1.status = ScriptStatus.Compiled ∧
    (writeCache envC1
        (internalCompile envC1
          (internalLoadCache envC1 freshScript (some "dir") (some "name")
              false).2.1).2.1).1 ≠ 0 := by
  decide

/-- Claim C1 (amended): for a unit in `Unknown` state whose cache read
misses and whose compile succeeds (with caching configured and enabled),
a failure of the Writer's `writeCacheFile` serialization step — after
the write locks have been acquired and both output files opened — is
non-fatal: the unit ends in `Compiled` state and `prepareExecutable`
returns the success status 0.  However, any cache-write failure before
serialization — failing to acquire the object-file or the info-file
write lock, or failing to open either output file — makes `writeCache`
return 1 and `prepareExecutable` propagate that nonzero status, the unit
still being left in `Compiled` state. -/
theorem claim_C1_amended_write_failure (env : Env) (s : RSScript)
    (dir name : String)
    (hst : s.status = ScriptStatus.Unknown)
    (hmiss : (internalLoadCache env s (some dir) (some name) false).1 ≠ 0)
    (hnp : env.nocacheProp = false)
    (hdir : dir.isEmpty = false) (hname : name.isEmpty = false)
    (ha : env.compileAllocOk = true) (hr : env.readModuleOk = true)
    (hcp : env.compileOk = true)
    (hmsg : env.compiledResult.compilerErrorMessage ≠ none) :
    (env.objWriteLockOk = true → env.infoWriteLockOk = true →
     env.objOpenWriteOk = true → env.infoOpenWriteOk = true →
     env.writeCacheFileOk = false →
     (prepareExecutable env s (some dir) (some name)).1 = 0 ∧
     (prepareExecutable env s (some dir) (some name)).2.1.status =
       ScriptStatus.Compiled) ∧
    ((env.objWriteLockOk = false ∨ env.infoWriteLockOk = false ∨
      env.objOpenWriteOk = false ∨ env.infoOpenWriteOk = false) →
     (writeCache env
         (internalCompile env
           (internalLoadCache env s (some dir) (some name)
               false).2.1).2.1).1 = 1 ∧
     (prepareExecutable env s (some dir) (some name)).1 = 1 ∧
     (prepareExecutable env s (some dir) (some name)).2.1.status =
       ScriptStatus.Compiled) := by
  have hps := internalLoadCache_paths env s dir name false
  have hcmp := internalCompile_success env
    (internalLoadCache env s (some dir) (some name) false).2.1 ha hr hcp
  constructor
  · intro hl1 hl2 ho1 ho2 hw
    have hwf := writeCache_writer_fail_spec env
      { (internalLoadCache env s (some dir) (some name) false).2.1 with
        compiled := env.compiledResult, status := ScriptStatus.Compiled }
      rfl (by simpa using hmsg) hnp
      (by simpa [hps.1, sanitizeCacheDir_isEmpty] using hdir)
      (by simpa [hps.2] using hname) hl1 hl2 ho1 ho2 hw
    simp [prepareExecutable, hst, hmiss, hcmp, hwf]
  · intro hfail
    have hwf := writeCache_preWrite_fail env
      { (internalLoadCache env s (some dir) (some name) false).2.1 with
        compiled := env.compiledResult, status := ScriptStatus.Compiled }
      rfl (by simpa using hmsg) hnp
      (by simpa [hps.1, sanitizeCacheDir_isEmpty] using hdir)
      (by simpa [hps.2] using hname) hfail
    constructor
    · rw [hcmp]
      exact hwf.1
    · simp [prepareExecutable, hst, hmiss, hcmp, hwf.1, hwf.2]

/-- Witness for the amended C1 at concrete environments: a failing
`writeCacheFile` yields status 0 in `Compiled` state; a failing
object-file write lock and a failing info-file open each make
`writeCache` return 1 and `prepareExecutable` return 1, also in
`Compiled` state. -/
theorem claim_C1_amended_witness :
    ((prepareExecutable
        { baseEnv with
          infoFileContent := { passInfoFile with sizeOk := false },
          writeCacheFileOk := false }
        freshScript (some "d") (some "n")).1 = 0 ∧
     (prepareExecutable
        { baseEnv with
          infoFileContent := { passInfoFile with sizeOk := false },
          writeCacheFileOk := false }
        freshScript (some "d") (some "n")).2.1.status =
       ScriptStatus.Compiled) ∧
    ((writeCache envC1
        (internalCompile envC1
          (internalLoadCache envC1 freshScript (some "d") (some "n")
              false).2.1).2.1).1 = 1 ∧
     (prepareExecutable envC1 freshScript (some "d") (some "n")).1 = 1 ∧
     (prepareExecutable envC1 freshScript (some "d")
         (some "n")).2.1.status = ScriptStatus.Compiled) ∧
    ((writeCache
        { baseEnv with
          infoFileContent := { passInfoFile with sizeOk := false },
          infoOpenWriteOk := false }
        (internalCompile
          { baseEnv with
            infoFileContent := { passInfoFile with sizeOk := false },
            infoOpenWriteOk := false }
          (internalLoadCache
            { baseEnv with
              infoFileContent := { passInfoFile with sizeOk := false },
              infoOpenWriteOk := false }
            freshScript (some "d") (some "n") false).2.1).2.1).1 = 1 ∧
     (prepareExecutable
        { baseEnv with
          infoFileContent := { passInfoFile with sizeOk := false },
          infoOpenWriteOk := false }
        freshScript (some "d") (some "n")).1 = 1 ∧
     (prepareExecutable
        { baseEnv with
          infoFileContent := { passInfoFile with sizeOk := false },
          infoOpenWriteOk := false }
        freshScript (some "d") (some "n")).2.1.status =
       ScriptStatus.Compiled) :=
  ⟨(claim_C1_amended_write_failure
      { baseEnv with
        infoFileContent := { passInfoFile with sizeOk := false },
        writeCacheFileOk := false }
      freshScript "d" "n" rfl (by decide) rfl (by decide) (by decide) rfl
      rfl rfl (by decide)).1 rfl rfl rfl rfl rfl,
   (claim_C1_amended_write_failure envC1 freshScript "d" "n" rfl
      (by decide) rfl (by decide) (by decide) rfl rfl rfl (by decide)).2
     (Or.inl rfl),
   (claim_C1_amended_write_failure
      { baseEnv with
        infoFileContent := { passInfoFile with sizeOk := false },
        infoOpenWriteOk := false }
      freshScript "d" "n" rfl (by decide) rfl (by decide) (by decide) rfl
      rfl rfl (by decide)).2 (Or.inr (Or.inr (Or.inr rfl)))⟩

/-- Helper: inserting a dependency whose name is not yet a key permutes
to consing it (`std::map::insert` adds exactly one entry for a fresh
key). -/
theorem depInsert_perm_fresh (l : List (String × Digest))
    (p : String × Digest) (h : p.1 ∉ keysOf l) :
    (depInsert l p).Perm (p :: l) := by
  unfold depInsert
  rw [if_neg]
  · exact List.perm_append_singleton p l
  · intro hc
    exact h (List.elem_iff.mp (by simpa [keysOf] using hc))

/-- Helper: folding `depInsert` over entries with pairwise-distinct names
all fresh for the accumulator yields a permutation of entries followed by
the accumulator. -/
theorem depFold_perm (l : List (String × Digest)) : ∀
    (acc : List (String × Digest)), (keysOf l).Nodup →
    (∀ p ∈ l, p.1 ∉ keysOf acc) →
    (l.foldl depInsert acc).Perm (l ++ acc) := by
  induction l with
  | nil => intro acc _ _; simp
  | cons p l' ih =>
    intro acc hnd hfr
    have hp : p.1 ∉ keysOf acc := hfr p (by simp)
    have hpl' : p.1 ∉ keysOf l' := by
      simp only [keysOf, List.map_cons, List.nodup_cons] at hnd
      exact hnd.1
    have hnd' : (keysOf l').Nodup := by
      simp only [keysOf, List.map_cons, List.nodup_cons] at hnd
      exact hnd.2
    have hins : (depInsert acc p).Perm (p :: acc) :=
      depInsert_perm_fresh acc p hp
    have hfr' : ∀ q ∈ l', q.1 ∉ keysOf (depInsert acc p) := by
      intro q hq hmem
      have hmem2 : q.1 ∈ keysOf (p :: acc) := by
        have := (hins.map Prod.fst).mem_iff.mp (by simpa [keysOf] using hmem)
        simpa [keysOf] using this
      simp only [keysOf, List.map_cons, List.mem_cons] at hmem2
      rcases hmem2 with h | h
      · exact hpl' (h ▸ (by simp [keysOf]; exact ⟨q.2, by simpa using hq⟩))
      · exact hfr q (List.mem_cons_of_mem _ hq) (by simpa [keysOf] using h)
    have IH := ih (depInsert acc p) hnd' hfr'
    refine IH.trans ((hins.append_left l').trans ?_)
    exact List.perm_middle

/-- Helper: lookup in a map with pairwise-distinct keys finds any present
entry. -/
theorem depLookup_eq_of_mem (m : List (String × Digest)) (n : String)
    (x : Digest) (hnd : (keysOf m).Nodup) (hm : (n, x) ∈ m) :
    depLookup m n = some x := by
  induction m with
  | nil => simp at hm
  | cons q qs ih =>
    simp only [List.mem_cons] at hm
    simp only [keysOf, List.map_cons, List.nodup_cons] at hnd
    rcases hm with h | h
    · rw [← h]
      simp [depLookup]
    · have hq : q.1 ≠ n := by
        intro he
        exact hnd.1 (he ▸ (by simp [keysOf]; exact ⟨x, by simpa using h⟩))
      simp [depLookup, hq, ih hnd.2 h]

/-- Helper: lookup of an absent key yields `none`. -/
theorem depLookup_eq_none (m : List (String × Digest)) (n : String)
    (h : n ∉ keysOf m) : depLookup m n = none := by
  induction m with
  | nil => rfl
  | cons q qs ih =>
    simp only [keysOf, List.map_cons, List.mem_cons] at h
    push_neg at h
    have hq : q.1 ≠ n := fun he => h.1 he.symm
    simp [depLookup, hq, ih (by simpa [keysOf] using h.2)]

/-- Helper: lookup is invariant under permutation of a map with
pairwise-distinct keys. -/
theorem depLookup_perm (m1 m2 : List (String × Digest))
    (hp : m1.Perm m2) (hnd : (keysOf m1).Nodup) (n : String) :
    depLookup m1 n = depLookup m2 n := by
  have hnd2 : (keysOf m2).Nodup := ((hp.map Prod.fst).nodup_iff).mp hnd
  by_cases hmem : n ∈ keysOf m1
  · simp only [keysOf, List.mem_map] at hmem
    obtain ⟨⟨n', x⟩, hx, he⟩ := hmem
    rw [show n' = n from he] at hx
    rw [depLookup_eq_of_mem m1 n x hnd hx,
        depLookup_eq_of_mem m2 n x hnd2 (hp.mem_iff.mp hx)]
  · rw [depLookup_eq_none m1 n hmem, depLookup_eq_none m2 n
        (fun hc => hmem (((hp.map Prod.fst).mem_iff).mpr (by
          simpa [keysOf] using hc)))]

/-- Helper: `checkDependency` depends on the reader's map only through
its size and its lookup function. -/
theorem checkDependency_congr (d1 d2 : List (String × Digest))
    (stored : List (String × Digest)) (hlen : d1.length = d2.length)
    (hlook : ∀ n, depLookup d1 n = depLookup d2 n) :
    checkDependency d1 stored = checkDependency d2 stored := by
  unfold checkDependency
  rw [hlen]
  have hfun : (fun p : String × Digest => depLookup d1 p.1 == some p.2) =
      (fun p : String × Digest => depLookup d2 p.1 == some p.2) :=
    funext fun p => by rw [hlook p.1]
  rw [hfun]

/-- Helper: two readers with down sticky flags and observably equal
dependency maps produce the same validation outcome and the same final
sticky flag on both reader entry points. -/
theorem checkCacheFile_congr (r1 r2 : MCCacheReader)
    (info : CacheInfoFile) (avail : List Nat)
    (hflag : r1.isContextSlotNotAvail = r2.isContextSlotNotAvail)
    (hdep : checkDependency r1.dependencies info.storedDeps =
      checkDependency r2.dependencies info.storedDeps) :
    (r1.checkCacheFile info avail).1 = (r2.checkCacheFile info avail).1 ∧
    (r1.checkCacheFile info avail).2.isContextSlotNotAvail =
      (r2.checkCacheFile info avail).2.isContextSlotNotAvail ∧
    (r1.readCacheFile info avail).1.isSome =
      (r2.readCacheFile info avail).1.isSome := by
  unfold MCCacheReader.readCacheFile MCCacheReader.checkCacheFile
  rw [hdep]
  split_ifs <;> simp [hflag]

/-- Helper: a sequence of `addDependency` calls only folds `depInsert`
over the dependency map, leaving all other reader fields unchanged. -/
theorem reader_fold_deps (l : List (String × Digest)) :
    ∀ r : MCCacheReader,
    l.foldl (fun rr p => rr.addDependency p.1 p.2) r =
      { r with dependencies := l.foldl depInsert r.dependencies } := by
  induction l with
  | nil => intro r; rfl
  | cons p l' ih =>
    intro r
    simp only [List.foldl_cons]
    rw [ih]
    rfl

/-- Helper: a failing dependency check makes both reader entry points
miss, whatever the other stages say. -/
theorem reader_miss_of_dep_false (r : MCCacheReader)
    (info : CacheInfoFile) (avail : List Nat)
    (hdep : checkDependency r.dependencies info.storedDeps = false) :
    (r.checkCacheFile info avail).1 = false ∧
    (r.readCacheFile info avail).1 = none := by
  unfold MCCacheReader.readCacheFile MCCacheReader.checkCacheFile
  rw [hdep]
  split_ifs <;> simp_all

/-- Claim C6: (a) the dependency comparison is order-independent: two
`addDependency` call sequences inserting the same set of (name, digest)
pairs — with pairwise-distinct names — in different orders give
`checkCacheFile` the same hit-or-miss outcome and `readCacheFile` the
same hit-or-miss outcome, because dependencies are keyed by name;
(b) changing the digest of any single dependency between write (the
stored table) and read (the supplied ledger) forces a miss on both entry
points. -/
theorem claim_C6_dependency_comparison :
    (∀ (l1 l2 : List (String × Digest)) (info : CacheInfoFile)
       (avail : List Nat),
       l1.Perm l2 → (keysOf l1).Nodup →
       ((readerWithDeps l1).checkCacheFile info avail).1 =
         ((readerWithDeps l2).checkCacheFile info avail).1 ∧
       ((readerWithDeps l1).readCacheFile info avail).1.isSome =
         ((readerWithDeps l2).readCacheFile info avail).1.isSome) ∧
    (∀ (pre post : List (String × Digest)) (n : String) (d d' : Digest)
       (info : CacheInfoFile) (avail : List Nat),
       info.storedDeps = pre ++ (n, d) :: post →
       (keysOf (pre ++ (n, d') :: post)).Nodup →
       d ≠ d' →
       ((readerWithDeps (pre ++ (n, d') :: post)).checkCacheFile info
           avail).1 = false ∧
       ((readerWithDeps (pre ++ (n, d') :: post)).readCacheFile info
           avail).1 = none) := by
  constructor
  · intro l1 l2 info avail hp hnd1
    have hnd2 : (keysOf l2).Nodup := ((hp.map Prod.fst).nodup_iff).mp hnd1
    have hr1 : readerWithDeps l1 =
        { MCCacheReader.new with dependencies := l1.foldl depInsert [] } :=
      reader_fold_deps l1 MCCacheReader.new
    have hr2 : readerWithDeps l2 =
        { MCCacheReader.new with dependencies := l2.foldl depInsert [] } :=
      reader_fold_deps l2 MCCacheReader.new
    have hd1 : (l1.foldl depInsert []).Perm l1 := by
      simpa using depFold_perm l1 [] hnd1 (by simp [keysOf])
    have hd2 : (l2.foldl depInsert []).Perm l2 := by
      simpa using depFold_perm l2 [] hnd2 (by simp [keysOf])
    have hdd : (l1.foldl depInsert []).Perm (l2.foldl depInsert []) :=
      (hd1.trans hp).trans hd2.symm
    have hndd : (keysOf (l1.foldl depInsert [])).Nodup :=
      ((hd1.map Prod.fst).nodup_iff).mpr hnd1
    have hlen : (l1.foldl depInsert []).length =
        (l2.foldl depInsert []).length := hdd.length_eq
    have hlook : ∀ n, depLookup (l1.foldl depInsert []) n =
        depLookup (l2.foldl depInsert []) n :=
      depLookup_perm _ _ hdd hndd
    have hcongr := checkCacheFile_congr (readerWithDeps l1)
      (readerWithDeps l2) info avail (by rw [hr1, hr2])
      (by rw [hr1, hr2]
          exact checkDependency_congr _ _ _ hlen hlook)
    exact ⟨hcongr.1, hcongr.2.2⟩
  · intro pre post n d d' info avail hstored hnd hne
    have hr : readerWithDeps (pre ++ (n, d') :: post) =
        { MCCacheReader.new with
          dependencies := (pre ++ (n, d') :: post).foldl depInsert [] } :=
      reader_fold_deps _ MCCacheReader.new
    have hdperm : ((pre ++ (n, d') :: post).foldl depInsert []).Perm
        (pre ++ (n, d') :: post) := by
      simpa using depFold_perm (pre ++ (n, d') :: post) [] hnd
        (by simp [keysOf])
    have hndd : (keysOf ((pre ++ (n, d') :: post).foldl depInsert
        [])).Nodup := ((hdperm.map Prod.fst).nodup_iff).mpr hnd
    have hmem : (n, d') ∈ (pre ++ (n, d') :: post).foldl depInsert [] :=
      hdperm.mem_iff.mpr (by simp)
    have hlook : depLookup ((pre ++ (n, d') :: post).foldl depInsert [])
        n = some d' := depLookup_eq_of_mem _ n d' hndd hmem
    have hdep : checkDependency
        ((pre ++ (n, d') :: post).foldl depInsert [])
        info.storedDeps = false := by
      have hall : info.storedDeps.all
          (fun p => depLookup ((pre ++ (n, d') :: post).foldl depInsert
            []) p.1 == some p.2) = false := by
        rw [Bool.eq_false_iff]
        intro hT
        have := (List.all_eq_true.mp hT) (n, d) (by simp [hstored])
        rw [hlook] at this
        simp only [beq_iff_eq, Option.some.injEq] at this
        exact hne (this.symm ▸ rfl)
      unfold checkDependency
      rw [hall, Bool.and_false]
    have := reader_miss_of_dep_false (readerWithDeps
      (pre ++ (n, d') :: post)) info avail (by rw [hr]; exact hdep)
    exact this

/-- Witness for C6: two insertion orders of the same two dependencies
give the same outcomes, and a single changed digest forces a miss. -/
theorem claim_C6_witness :
    (((readerWithDeps [("a", [1]), ("b", [2])]).checkCacheFile
        passInfoFile []).1 =
       ((readerWithDeps [("b", [2]), ("a", [1])]).checkCacheFile
         passInfoFile []).1 ∧
     ((readerWithDeps [("a", [1]), ("b", [2])]).readCacheFile
        passInfoFile []).1.isSome =
       ((readerWithDeps [("b", [2]), ("a", [1])]).readCacheFile
         passInfoFile []).1.isSome) ∧
    (((readerWithDeps [("a", [2])]).checkCacheFile
        { passInfoFile with storedDeps := [("a", [1])] } []).1 = false ∧
     ((readerWithDeps [("a", [2])]).readCacheFile
        { passInfoFile with storedDeps := [("a", [1])] } []).1 = none) :=
  ⟨claim_C6_dependency_comparison.1 [("a", [1]), ("b", [2])]
     [("b", [2]), ("a", [1])] passInfoFile [] (by decide) (by decide),
   claim_C6_dependency_comparison.2 [] [] "a" [1] [2]
     { passInfoFile with storedDeps := [("a", [1])] } [] rfl (by decide)
     (by decide)⟩
